import Mathlib

/-!
Verification development for the workers module of a cloud-provider API client
(workers.go). The module uploads, downloads, deletes and lists serverless
scripts, and manages routes/filters, selecting between two endpoint families:
a zone-scoped single-script family and an account-scoped multi-script family.

The embedding below translates the source functions directly. Go maps are
modelled as insertion-ordered association lists, so map iteration order is the
list order (the repository test suite relies on insertion order as well).
Byte slices and strings are both modelled as Lean strings, which is faithful
because the source only ever converts between them with identity conversions.
The randomly generated multipart boundary of multipart.NewWriter is passed as
an explicit argument, since the embedding is deterministic.
-/

set_option maxRecDepth 4000

namespace Cloudflare

/-- A single part of a multipart/form-data message as emitted by
formatMultipartBody: every part written by workers.go carries exactly a
content-disposition header of the form: form-data; name="..." and a
content-type header, followed by the part content. -/
structure Part where
  name : String
  contentType : String
  content : String
  deriving DecidableEq

/-- The carriage-return line-feed separator of the multipart wire format. -/
def crlf : String := "\r\n"

/-- Header block of one part, as mime/multipart CreatePart writes it: header
keys in sorted order (Content-Disposition before Content-Type), each
terminated by CRLF, then a blank line. -/
def renderPartHeader (p : Part) : String :=
  "Content-Disposition: form-data; name=\"" ++ p.name ++ "\"" ++ crlf ++
    "Content-Type: " ++ p.contentType ++ crlf ++ crlf

/-- Non-first parts of a multipart message: each is preceded by CRLF and a
dash-dash boundary line. -/
def renderParts (boundary : String) : List Part → String
  | [] => ""
  | p :: rest =>
      crlf ++ "--" ++ boundary ++ crlf ++ renderPartHeader p ++ p.content ++
        renderParts boundary rest

/-- Full multipart message body: the first part has no leading CRLF, and
closing the writer appends the terminating boundary line, exactly as
mime/multipart Writer does. -/
def renderMultipart (boundary : String) (parts : List Part) : String :=
  (match parts with
   | [] => ""
   | p :: rest =>
       "--" ++ boundary ++ crlf ++ renderPartHeader p ++ p.content ++
         renderParts boundary rest) ++
    crlf ++ "--" ++ boundary ++ "--" ++ crlf

/-- Hexadecimal digit characters as produced by the Go JSON encoder
(lower case). -/
def hexDigit (n : Nat) : Char :=
  if n < 10 then Char.ofNat (48 + n) else Char.ofNat (87 + n)

/-- Escaping of one character under Go json.Marshal (HTML escaping enabled,
the default): quote, backslash, newline, carriage return and tab have short
escapes, other control characters and the HTML-significant characters get
unicode escapes, U+2028 and U+2029 are escaped, everything else is literal. -/
def jsonEscapeChar (c : Char) : String :=
  if c = '\"' then "\\\""
  else if c = '\\' then "\\\\"
  else if c = '\n' then "\\n"
  else if c = '\r' then "\\r"
  else if c = '\t' then "\\t"
  else if c = '<' then "\\u003c"
  else if c = '>' then "\\u003e"
  else if c = '&' then "\\u0026"
  else if c.toNat < 32 then
    "\\u00" ++ String.mk [hexDigit (c.toNat / 16), hexDigit (c.toNat % 16)]
  else if c.toNat = 8232 then "\\u2028"
  else if c.toNat = 8233 then "\\u2029"
  else String.mk [c]

/-- A Go JSON string literal: quotes around the escaped characters. -/
def jsonString (s : String) : String :=
  "\"" ++ String.join (s.data.map jsonEscapeChar) ++ "\""

/-- Comma-separated concatenation, as json.Marshal renders array elements. -/
def joinComma : List String → String
  | [] => ""
  | [x] => x
  | x :: xs => x ++ "," ++ joinComma xs

/-- WorkerInheritBinding from workers.go. -/
structure WorkerInheritBinding where
  OldName : String
  deriving DecidableEq

/-- The one WorkerBinding implementor present in workers.go. -/
inductive WorkerBinding where
  | inherit (b : WorkerInheritBinding)
  deriving DecidableEq

/-- A binding body-part writer: it receives the multipart writer, modelled by
the list of parts emitted so far, and appends its parts or fails. -/
def BindingBodyWriter : Type := List Part → Except String (List Part)

/-- The json.Marshal call inside WorkerInheritBinding.serialize: the meta
struct has fields name, type (always the literal inherit) and old_name with
omitempty, marshalled in declaration order. -/
def WorkerInheritBinding.serializeFragment (b : WorkerInheritBinding)
    (name : String) : String :=
  if b.OldName = "" then
    "\x7b\"name\":" ++ jsonString name ++ ",\"type\":\"inherit\"\x7d"
  else
    "\x7b\"name\":" ++ jsonString name ++ ",\"type\":\"inherit\",\"old_name\":" ++
      jsonString b.OldName ++ "\x7d"

/-- WorkerInheritBinding.serialize from workers.go: returns the marshalled
metadata fragment and no body-part writer. The marshal of a struct of plain
strings cannot fail, so the error branch of the source is unreachable and the
result is always ok. -/
def WorkerInheritBinding.serialize (b : WorkerInheritBinding) (name : String) :
    Except String (String × Option BindingBodyWriter) :=
  Except.ok (b.serializeFragment name, none)

/-- Dynamic dispatch of the WorkerBinding interface. -/
def WorkerBinding.serialize : WorkerBinding → String →
    Except String (String × Option BindingBodyWriter)
  | .inherit b, name => b.serialize name

/-- WorkerScriptParams from workers.go; the Go map of bindings is modelled as
an insertion-ordered association list. -/
structure WorkerScriptParams where
  Script : String
  Bindings : List (String × WorkerBinding)

/-- hasKey from workers.go: membership of a key in the binding map. -/
def hasKey (m : List (String × WorkerBinding)) (key : String) : Bool :=
  m.any fun p => p.1 == key

/-- Length of the longest binding name; an upper bound used to bound the
collision-avoidance loop of formatMultipartBody. -/
def maxKeyLen : List (String × WorkerBinding) → Nat
  | [] => 0
  | p :: rest => max p.1.length (maxKeyLen rest)

/-- The collision-avoidance loop of formatMultipartBody:
while hasKey(bindings, scriptBodyPart), append an underscore. The source loop
is unbounded; here it carries a fuel argument. Starting the fuel at
maxKeyLen + 1 provably exceeds the number of possible collisions (each
appended underscore lengthens the candidate, and no key is longer than
maxKeyLen), so the fuel never runs out before the loop condition turns false;
the theorems below establish exactly this. -/
def chooseLoop (m : List (String × WorkerBinding)) : Nat → String → String
  | 0, s => s
  | fuel + 1, s => if hasKey m s then chooseLoop m fuel (s ++ "_") else s

/-- The script body-part name chosen by formatMultipartBody: starts at the
literal script and gains one underscore per collision with a binding name. -/
def chooseScriptBodyPart (m : List (String × WorkerBinding)) : String :=
  chooseLoop m (maxKeyLen m + 1) "script"

/-- A run of k underscores, the disambiguating markers appended by the
collision-avoidance loop. -/
def underscores (k : Nat) : String :=
  String.mk (List.replicate k '_')

/-- The metadata JSON object marshalled by formatMultipartBody:
body_part holds the chosen script part name, bindings the per-binding
fragments in visit order; an empty fragment list renders as an empty array
since the source allocates a non-nil empty slice. -/
def marshalMetadata (bodyPart : String) (fragments : List String) : String :=
  "\x7b\"body_part\":" ++ jsonString bodyPart ++ ",\"bindings\":[" ++
    joinComma fragments ++ "]\x7d"

/-- The per-binding loop of formatMultipartBody: serialize each binding in
visit order, accumulating the metadata fragments and the body writers; the
first serialization error aborts. -/
def serializeBindings : List (String × WorkerBinding) →
    Except String (List String × List (Option BindingBodyWriter))
  | [] => Except.ok ([], [])
  | (name, b) :: rest =>
    match b.serialize name with
    | Except.error e => Except.error e
    | Except.ok (fragment, writer) =>
      match serializeBindings rest with
      | Except.error e => Except.error e
      | Except.ok (fragments, writers) =>
          Except.ok (fragment :: fragments, writer :: writers)

/-- The final loop of formatMultipartBody: invoke every non-nil binding body
writer against the multipart writer, aborting on the first error. -/
def runWriters : List (Option BindingBodyWriter) → List Part →
    Except String (List Part)
  | [], parts => Except.ok parts
  | none :: ws, parts => runWriters ws parts
  | some w :: ws, parts =>
    match w parts with
    | Except.error e => Except.error e
    | Except.ok parts2 => runWriters ws parts2

/-- The structural content of formatMultipartBody: the sequence of parts
written to the multipart writer. First the metadata part (name metadata,
content-type application/json, content the marshalled metadata object), then
the script part (the chosen script body-part name, content-type
application/javascript, content the raw script text), then whatever parts the
binding body writers append. -/
def formatMultipartParts (params : WorkerScriptParams) :
    Except String (List Part) :=
  let scriptBodyPart := chooseScriptBodyPart params.Bindings
  match serializeBindings params.Bindings with
  | Except.error e => Except.error e
  | Except.ok (fragments, writers) =>
      runWriters writers
        [⟨"metadata", "application/json", marshalMetadata scriptBodyPart fragments⟩,
         ⟨scriptBodyPart, "application/javascript", params.Script⟩]

/-- formatMultipartBody from workers.go. Returns content-type and body; the
body is the serialized multipart message over the writer boundary. -/
def formatMultipartBody (boundary : String) (params : WorkerScriptParams) :
    Except String (String × String) :=
  match formatMultipartParts params with
  | Except.error e => Except.error e
  | Except.ok parts =>
      Except.ok ("multipart/form-data; boundary=" ++ boundary,
        renderMultipart boundary parts)

/-- Oracle recording the outcome of each fallible operation performed by
formatMultipartBody against the multipart writer: none means the operation
succeeds, some e means it fails with error e. Over the in-memory buffer of
the source these operations in fact never fail; the oracle makes the error
propagation structure of the source examinable. -/
structure MpErrOracle where
  createMetaPartErr : Option String
  marshalMetaErr : Option String
  writeMetaErr : Option String
  createScriptPartErr : Option String
  writeScriptErr : Option String

/-- Embedding of formatMultipartBody with the outcome of each fallible writer
operation made explicit through an oracle, mirroring the error checks of the
source statement by statement. Note the script part: the source assigns the
CreatePart error to err and then immediately reassigns err with the result of
Write without checking in between, so the CreatePart outcome is consulted
nowhere. -/
def formatMultipartBodyChecked (o : MpErrOracle) (boundary : String)
    (params : WorkerScriptParams) : Except String (String × String) :=
  let scriptBodyPart := chooseScriptBodyPart params.Bindings
  match serializeBindings params.Bindings with
  | Except.error e => Except.error e
  | Except.ok (fragments, writers) =>
    match o.createMetaPartErr with
    | some e => Except.error e
    | none =>
    match o.marshalMetaErr with
    | some e => Except.error e
    | none =>
    match o.writeMetaErr with
    | some e => Except.error e
    | none =>
      -- pw, err = mpw.CreatePart(hdr): the error is assigned but not checked
      let err := o.createScriptPartErr
      -- _, err = pw.Write(...): err is overwritten before any check happens
      let err := o.writeScriptErr
      match err with
      | some e => Except.error e
      | none =>
        match runWriters writers
            [⟨"metadata", "application/json",
              marshalMetadata scriptBodyPart fragments⟩,
             ⟨scriptBodyPart, "application/javascript", params.Script⟩] with
        | Except.error e => Except.error e
        | Except.ok parts =>
            Except.ok ("multipart/form-data; boundary=" ++ boundary,
              renderMultipart boundary parts)

/-- Modelled from the spec: the uniform response envelope
(result, success, errors, messages) shared by all JSON-returning calls; the
envelope type itself lives outside this module. -/
structure Response where
  Success : Bool
  Errors : List String
  Messages : List String
  deriving DecidableEq

/-- The Go zero value of the envelope. -/
def Response.zero : Response := ⟨false, [], []⟩

/-- WorkerMetaData from workers.go. The two time.Time fields are carried
opaquely in their textual form; no operation in this module inspects them. -/
structure WorkerMetaData where
  ID : String
  ETAG : String
  Size : Int
  CreatedOn : String
  ModifiedOn : String
  deriving DecidableEq

/-- The Go zero value of WorkerMetaData. -/
def WorkerMetaData.zero : WorkerMetaData := ⟨"", "", 0, "", ""⟩

/-- WorkerScript from workers.go: metadata plus the script source. -/
structure WorkerScript where
  meta : WorkerMetaData
  Script : String
  deriving DecidableEq

/-- The Go zero value of WorkerScript. -/
def WorkerScript.zero : WorkerScript := ⟨WorkerMetaData.zero, ""⟩

/-- WorkerScriptResponse from workers.go: envelope plus embedded script. -/
structure WorkerScriptResponse where
  response : Response
  result : WorkerScript
  deriving DecidableEq

/-- The Go zero value of WorkerScriptResponse, as declared by
var r WorkerScriptResponse in the source. -/
def WorkerScriptResponse.zero : WorkerScriptResponse :=
  ⟨Response.zero, WorkerScript.zero⟩

/-- WorkerRoute from workers.go. -/
structure WorkerRoute where
  ID : String
  Pattern : String
  Enabled : Bool
  Script : String
  deriving DecidableEq

/-- WorkerRoutesResponse from workers.go. -/
structure WorkerRoutesResponse where
  response : Response
  Routes : List WorkerRoute
  deriving DecidableEq

/-- WorkerRouteResponse from workers.go. -/
structure WorkerRouteResponse where
  response : Response
  result : WorkerRoute
  deriving DecidableEq

/-- WorkerListResponse from workers.go. -/
structure WorkerListResponse where
  response : Response
  WorkerList : List WorkerMetaData
  deriving DecidableEq

/-- WorkerRequestParams from workers.go. -/
structure WorkerRequestParams where
  ZoneID : String
  ScriptName : String
  deriving DecidableEq

/-- The payload handed to the abstract transport: nil, a raw byte body for
uploads, or a route object the transport marshals to JSON. -/
inductive ReqBody where
  | empty
  | raw (bytes : String)
  | routeJson (route : WorkerRoute)
  deriving DecidableEq

/-- One outbound HTTP request as handed to the abstract transport; headers
are the extra headers of makeRequestWithHeaders (only Content-Type is ever
set by this module) and are empty for plain makeRequest calls. -/
structure Request where
  method : String
  uri : String
  headers : List (String × String)
  body : ReqBody
  deriving DecidableEq

/-- Modelled from the spec: the client configuration; the only field this
module reads is the configured account/organization identifier. -/
structure API where
  OrganizationID : String

/-- Modelled from the spec: the external collaborators of the module, namely
the abstract transport makeRequest / makeRequestWithHeaders returning raw
response bytes or an error, and the JSON envelope decoding of each response
shape. Their behaviour is arbitrary; the theorems quantify over it. -/
structure Env where
  transport : Request → Except String String
  unmarshalScriptResponse : String → Except String WorkerScriptResponse
  unmarshalListResponse : String → Except String WorkerListResponse
  unmarshalRouteResponse : String → Except String WorkerRouteResponse
  unmarshalRoutesResponse : String → Except String WorkerRoutesResponse

/-- The precondition error message raised by the multi-script operations
when no organization identifier is configured (errors.New in the source). -/
def errOrganizationIDRequired : String :=
  "organization ID required for enterprise only request"

/-- Modelled from the spec: the stage tag wrapped around transport errors. -/
def errMakeRequestError : String := "request failed"

/-- Modelled from the spec: the stage tag wrapped around decode errors. -/
def errUnmarshalError : String := "unmarshal failed"

/-- Modelled from the spec: errors.Wrap prefixes the stage tag onto the
underlying error. -/
def wrapErr (msg cause : String) : String := msg ++ ": " ++ cause

/-- deleteWorkerWithName from workers.go: requires the organization
identifier, then issues DELETE on the account-scoped path. Every operation
returns its outcome paired with the list of requests it handed to the
transport. -/
def API.deleteWorkerWithName (api : API) (env : Env) (scriptName : String) :
    Except String WorkerScriptResponse × List Request :=
  if api.OrganizationID = "" then
    (Except.error errOrganizationIDRequired, [])
  else
    let uri := "/accounts/" ++ api.OrganizationID ++ "/workers/scripts/" ++ scriptName
    let req : Request := ⟨"DELETE", uri, [], ReqBody.empty⟩
    match env.transport req with
    | Except.error e => (Except.error (wrapErr errMakeRequestError e), [req])
    | Except.ok res =>
      match env.unmarshalScriptResponse res with
      | Except.error e => (Except.error (wrapErr errUnmarshalError e), [req])
      | Except.ok r => (Except.ok r, [req])

/-- DeleteWorker from workers.go. -/
def API.DeleteWorker (api : API) (env : Env)
    (requestParams : WorkerRequestParams) :
    Except String WorkerScriptResponse × List Request :=
  -- if ScriptName is provided we will treat as org request
  if requestParams.ScriptName ≠ "" then
    api.deleteWorkerWithName env requestParams.ScriptName
  else
    let uri := "/zones/" ++ requestParams.ZoneID ++ "/workers/script"
    let req : Request := ⟨"DELETE", uri, [], ReqBody.empty⟩
    match env.transport req with
    | Except.error e => (Except.error (wrapErr errMakeRequestError e), [req])
    | Except.ok res =>
      match env.unmarshalScriptResponse res with
      | Except.error e => (Except.error (wrapErr errUnmarshalError e), [req])
      | Except.ok r => (Except.ok r, [req])

/-- downloadWorkerWithName from workers.go: the successful response body is
taken as the script text directly and Success is set locally; no JSON
decoding of the body happens. -/
def API.downloadWorkerWithName (api : API) (env : Env) (scriptName : String) :
    Except String WorkerScriptResponse × List Request :=
  if api.OrganizationID = "" then
    (Except.error errOrganizationIDRequired, [])
  else
    let uri := "/accounts/" ++ api.OrganizationID ++ "/workers/scripts/" ++ scriptName
    let req : Request := ⟨"GET", uri, [], ReqBody.empty⟩
    match env.transport req with
    | Except.error e => (Except.error (wrapErr errMakeRequestError e), [req])
    | Except.ok res =>
      (Except.ok { response := { Response.zero with Success := true },
                   result := { WorkerScript.zero with Script := res } }, [req])

/-- DownloadWorker from workers.go. -/
def API.DownloadWorker (api : API) (env : Env)
    (requestParams : WorkerRequestParams) :
    Except String WorkerScriptResponse × List Request :=
  if requestParams.ScriptName ≠ "" then
    api.downloadWorkerWithName env requestParams.ScriptName
  else
    let uri := "/zones/" ++ requestParams.ZoneID ++ "/workers/script"
    let req : Request := ⟨"GET", uri, [], ReqBody.empty⟩
    match env.transport req with
    | Except.error e => (Except.error (wrapErr errMakeRequestError e), [req])
    | Except.ok res =>
      (Except.ok { response := { Response.zero with Success := true },
                   result := { WorkerScript.zero with Script := res } }, [req])

/-- ListWorkerScripts from workers.go: account-scoped listing, requires the
organization identifier. -/
def API.ListWorkerScripts (api : API) (env : Env) :
    Except String WorkerListResponse × List Request :=
  if api.OrganizationID = "" then
    (Except.error errOrganizationIDRequired, [])
  else
    let uri := "/accounts/" ++ api.OrganizationID ++ "/workers/scripts"
    let req : Request := ⟨"GET", uri, [], ReqBody.empty⟩
    match env.transport req with
    | Except.error e => (Except.error (wrapErr errMakeRequestError e), [req])
    | Except.ok res =>
      match env.unmarshalListResponse res with
      | Except.error e => (Except.error (wrapErr errUnmarshalError e), [req])
      | Except.ok r => (Except.ok r, [req])

/-- singleScriptUpload from workers.go: PUT on the zone-scoped path with the
given content type and body; no local validation of the zone identifier. -/
def API.singleScriptUpload (api : API) (env : Env)
    (zoneId contentType body : String) :
    Except String WorkerScriptResponse × List Request :=
  let uri := "/zones/" ++ zoneId ++ "/workers/script"
  let req : Request := ⟨"PUT", uri, [("Content-Type", contentType)], ReqBody.raw body⟩
  match env.transport req with
  | Except.error e => (Except.error (wrapErr errMakeRequestError e), [req])
  | Except.ok res =>
    match env.unmarshalScriptResponse res with
    | Except.error e => (Except.error (wrapErr errUnmarshalError e), [req])
    | Except.ok r => (Except.ok r, [req])

/-- multiScriptUpload from workers.go: requires the organization identifier,
then PUT on the account-scoped path with the given content type and body. -/
def API.multiScriptUpload (api : API) (env : Env)
    (scriptName contentType body : String) :
    Except String WorkerScriptResponse × List Request :=
  if api.OrganizationID = "" then
    (Except.error errOrganizationIDRequired, [])
  else
    let uri := "/accounts/" ++ api.OrganizationID ++ "/workers/scripts/" ++ scriptName
    let req : Request := ⟨"PUT", uri, [("Content-Type", contentType)], ReqBody.raw body⟩
    match env.transport req with
    | Except.error e => (Except.error (wrapErr errMakeRequestError e), [req])
    | Except.ok res =>
      match env.unmarshalScriptResponse res with
      | Except.error e => (Except.error (wrapErr errUnmarshalError e), [req])
      | Except.ok r => (Except.ok r, [req])

/-- UploadWorker from workers.go: raw script bytes with content type
application/javascript on either endpoint family. -/
def API.UploadWorker (api : API) (env : Env)
    (requestParams : WorkerRequestParams) (data : String) :
    Except String WorkerScriptResponse × List Request :=
  if requestParams.ScriptName ≠ "" then
    api.multiScriptUpload env requestParams.ScriptName "application/javascript" data
  else
    api.singleScriptUpload env requestParams.ZoneID "application/javascript" data

/-- UploadWorkerWithBindings from workers.go: always builds the multipart
body first, then routes to the selected endpoint family. -/
def API.UploadWorkerWithBindings (api : API) (env : Env) (boundary : String)
    (requestParams : WorkerRequestParams) (data : WorkerScriptParams) :
    Except String WorkerScriptResponse × List Request :=
  match formatMultipartBody boundary data with
  | Except.error e => (Except.error e, [])
  | Except.ok (contentType, body) =>
    if requestParams.ScriptName ≠ "" then
      api.multiScriptUpload env requestParams.ScriptName contentType body
    else
      api.singleScriptUpload env requestParams.ZoneID contentType body

/-- CreateWorkerRoute from workers.go: a non-empty Script field on the route
selects the multi-script family (path segment routes, organization
identifier required); otherwise the single-script family (filters). -/
def API.CreateWorkerRoute (api : API) (env : Env) (zoneID : String)
    (route : WorkerRoute) : Except String WorkerRouteResponse × List Request :=
  -- Check whether a script name is defined in order to determine whether
  -- to use the single-script or multi-script endpoint; the multi-script
  -- endpoint needs the organization identifier before anything is sent.
  if route.Script ≠ "" ∧ api.OrganizationID = "" then
    (Except.error errOrganizationIDRequired, [])
  else
    let pathComponent := if route.Script ≠ "" then "routes" else "filters"
    let uri := "/zones/" ++ zoneID ++ "/workers/" ++ pathComponent
    let req : Request := ⟨"POST", uri, [], ReqBody.routeJson route⟩
    match env.transport req with
    | Except.error e => (Except.error (wrapErr errMakeRequestError e), [req])
    | Except.ok res =>
      match env.unmarshalRouteResponse res with
      | Except.error e => (Except.error (wrapErr errUnmarshalError e), [req])
      | Except.ok r => (Except.ok r, [req])

/-- DeleteWorkerRoute from workers.go: mode-agnostic, always the filters
path. -/
def API.DeleteWorkerRoute (api : API) (env : Env) (zoneID routeID : String) :
    Except String WorkerRouteResponse × List Request :=
  let uri := "/zones/" ++ zoneID ++ "/workers/filters/" ++ routeID
  let req : Request := ⟨"DELETE", uri, [], ReqBody.empty⟩
  match env.transport req with
  | Except.error e => (Except.error (wrapErr errMakeRequestError e), [req])
  | Except.ok res =>
    match env.unmarshalRouteResponse res with
    | Except.error e => (Except.error (wrapErr errUnmarshalError e), [req])
    | Except.ok r => (Except.ok r, [req])

/-- The route normalization loop of ListWorkerRoutes: the Enabled flag is
not set in the multi-script API response, so it is forced to true whenever
the script name is non-empty. -/
def backfillRoute (route : WorkerRoute) : WorkerRoute :=
  if route.Script ≠ "" then { route with Enabled := true } else route

/-- ListWorkerRoutes from workers.go: the path segment is chosen from
whether an organization identifier is configured, and the normalization loop
is applied to every returned route afterwards. -/
def API.ListWorkerRoutes (api : API) (env : Env) (zoneID : String) :
    Except String WorkerRoutesResponse × List Request :=
  let pathComponent := if api.OrganizationID ≠ "" then "routes" else "filters"
  let uri := "/zones/" ++ zoneID ++ "/workers/" ++ pathComponent
  let req : Request := ⟨"GET", uri, [], ReqBody.empty⟩
  match env.transport req with
  | Except.error e => (Except.error (wrapErr errMakeRequestError e), [req])
  | Except.ok res =>
    match env.unmarshalRoutesResponse res with
    | Except.error e => (Except.error (wrapErr errUnmarshalError e), [req])
    | Except.ok r => (Except.ok { r with Routes := r.Routes.map backfillRoute }, [req])

/-- UpdateWorkerRoute from workers.go: same mode selection as route
creation, PUT on the path extended with the route identifier. -/
def API.UpdateWorkerRoute (api : API) (env : Env) (zoneID routeID : String)
    (route : WorkerRoute) : Except String WorkerRouteResponse × List Request :=
  -- Check whether a script name is defined in order to determine whether
  -- to use the single-script or multi-script endpoint.
  if route.Script ≠ "" ∧ api.OrganizationID = "" then
    (Except.error errOrganizationIDRequired, [])
  else
    let pathComponent := if route.Script ≠ "" then "routes" else "filters"
    let uri := "/zones/" ++ zoneID ++ "/workers/" ++ pathComponent ++ "/" ++ routeID
    let req : Request := ⟨"PUT", uri, [], ReqBody.routeJson route⟩
    match env.transport req with
    | Except.error e => (Except.error (wrapErr errMakeRequestError e), [req])
    | Except.ok res =>
      match env.unmarshalRouteResponse res with
      | Except.error e => (Except.error (wrapErr errUnmarshalError e), [req])
      | Except.ok r => (Except.ok r, [req])

/-! ## Derived definitions used to state properties, and concrete instances
used by witnesses and counterexamples -/

/-- The metadata fragments of a binding map, in visit order; the fragment of
each binding is what its serialize method marshals. -/
def bindingFragments (m : List (String × WorkerBinding)) : List String :=
  m.map fun p =>
    match p.2 with
    | .inherit b => b.serializeFragment p.1

/-- Whether a binding contributes a body-part writer when serialized under
the given name. -/
def bindingSuppliesWriter (name : String) (b : WorkerBinding) : Bool :=
  match b.serialize name with
  | Except.ok (_, some _) => true
  | _ => false

/-- Oracle in which only the script create-part step fails. -/
def c9Oracle : MpErrOracle := ⟨none, none, none, some "create part failed", none⟩

/-- A concrete environment: the transport always succeeds with an empty body
and every decoder returns a zero envelope. -/
def testEnv : Env :=
  { transport := fun _ => Except.ok ""
    unmarshalScriptResponse := fun _ => Except.ok WorkerScriptResponse.zero
    unmarshalListResponse := fun _ => Except.ok ⟨Response.zero, []⟩
    unmarshalRouteResponse := fun _ => Except.ok ⟨Response.zero, ⟨"", "", false, ""⟩⟩
    unmarshalRoutesResponse := fun _ => Except.ok ⟨Response.zero, []⟩ }

/-- A concrete environment whose route listing contains a route that carries
a script name but whose enabled flag, as supplied by the server, is false. -/
def c5Env : Env :=
  { transport := fun _ => Except.ok "listing"
    unmarshalScriptResponse := fun _ => Except.ok WorkerScriptResponse.zero
    unmarshalListResponse := fun _ => Except.ok ⟨Response.zero, []⟩
    unmarshalRouteResponse := fun _ => Except.ok ⟨Response.zero, ⟨"", "", false, ""⟩⟩
    unmarshalRoutesResponse := fun _ =>
      Except.ok ⟨{ Response.zero with Success := true },
        [⟨"route1", "pat1", false, "scriptname"⟩]⟩ }

/-- A concrete environment whose transport always returns fixed script
source bytes. -/
def c8EnvA : Env :=
  { transport := fun _ => Except.ok "worker source"
    unmarshalScriptResponse := fun _ => Except.ok WorkerScriptResponse.zero
    unmarshalListResponse := fun _ => Except.ok ⟨Response.zero, []⟩
    unmarshalRouteResponse := fun _ => Except.ok ⟨Response.zero, ⟨"", "", false, ""⟩⟩
    unmarshalRoutesResponse := fun _ => Except.ok ⟨Response.zero, []⟩ }

/-- Same transport as c8EnvA but a different script decoder, to exhibit that
downloads never consult the decoder. -/
def c8EnvB : Env :=
  { c8EnvA with unmarshalScriptResponse := fun _ => Except.error "decoder differs" }

/-! ## Helper lemmas about the multipart builder -/

theorem serializeBindings_eq (m : List (String × WorkerBinding)) :
    serializeBindings m =
      Except.ok (bindingFragments m,
        m.map fun _ => (none : Option BindingBodyWriter)) := by
  induction m with
  | nil => rfl
  | cons p rest ih =>
    obtain ⟨name, b⟩ := p
    cases b with
    | inherit bb =>
      simp [serializeBindings, bindingFragments, WorkerBinding.serialize,
        WorkerInheritBinding.serialize, ih]

theorem runWriters_map_none (m : List (String × WorkerBinding))
    (parts : List Part) :
    runWriters (m.map fun _ => (none : Option BindingBodyWriter)) parts =
      Except.ok parts := by
  induction m with
  | nil => rfl
  | cons p rest ih => simpa [runWriters] using ih

theorem runWriters_replicate_none (n : Nat) (parts : List Part) :
    runWriters (List.replicate n (none : Option BindingBodyWriter)) parts =
      Except.ok parts := by
  induction n with
  | zero => rfl
  | succ n ih => simpa [runWriters] using ih

theorem no_binding_supplies_writer (m : List (String × WorkerBinding)) :
    m.countP (fun p => bindingSuppliesWriter p.1 p.2) = 0 := by
  induction m with
  | nil => rfl
  | cons p rest ih =>
    obtain ⟨name, b⟩ := p
    cases b with
    | inherit bb =>
      simp [List.countP_cons, bindingSuppliesWriter, WorkerBinding.serialize,
        WorkerInheritBinding.serialize, ih]

/-- formatMultipartBody always emits exactly the metadata part followed by
the script part (the only binding variant of the module declares no extra
part) and cannot fail. -/
theorem formatMultipartParts_eq (params : WorkerScriptParams) :
    formatMultipartParts params =
      Except.ok
        [⟨"metadata", "application/json",
          marshalMetadata (chooseScriptBodyPart params.Bindings)
            (bindingFragments params.Bindings)⟩,
         ⟨chooseScriptBodyPart params.Bindings, "application/javascript",
          params.Script⟩] := by
  simp [formatMultipartParts, serializeBindings_eq, runWriters_map_none,
    runWriters_replicate_none]

theorem formatMultipartBody_eq (boundary : String)
    (params : WorkerScriptParams) :
    formatMultipartBody boundary params =
      Except.ok ("multipart/form-data; boundary=" ++ boundary,
        renderMultipart boundary
          [⟨"metadata", "application/json",
            marshalMetadata (chooseScriptBodyPart params.Bindings)
              (bindingFragments params.Bindings)⟩,
           ⟨chooseScriptBodyPart params.Bindings, "application/javascript",
            params.Script⟩]) := by
  simp [formatMultipartBody, formatMultipartParts_eq]

/-! ## Helper lemmas about the collision-avoidance loop -/

theorem key_length_le_maxKeyLen (m : List (String × WorkerBinding))
    (p : String × WorkerBinding) (hp : p ∈ m) :
    p.1.length ≤ maxKeyLen m := by
  induction m with
  | nil => cases hp
  | cons q rest ih =>
    rcases List.mem_cons.mp hp with h | h
    · subst h; exact Nat.le_max_left _ _
    · exact Nat.le_trans (ih h) (Nat.le_max_right _ _)

theorem hasKey_length_le (m : List (String × WorkerBinding)) (s : String)
    (h : hasKey m s = true) : s.length ≤ maxKeyLen m := by
  simp only [hasKey, List.any_eq_true, beq_iff_eq] at h
  obtain ⟨p, hp, hps⟩ := h
  exact hps ▸ key_length_le_maxKeyLen m p hp

theorem underscores_length (k : Nat) : (underscores k).length = k := by
  show (List.replicate k '_').length = k
  simp

theorem append_underscores_zero (s : String) : s ++ underscores 0 = s :=
  String.append_empty s

theorem append_underscores_succ (s : String) (k : Nat) :
    (s ++ "_") ++ underscores k = s ++ underscores (k + 1) :=
  String.append_assoc s "_" (underscores k)

/-- Full behaviour of the fuelled collision-avoidance loop, provided the
fuel together with the candidate length exceeds every key length: the result
never collides with a key, and it is the start candidate extended by one
underscore for each colliding intermediate candidate. -/
theorem chooseLoop_spec (m : List (String × WorkerBinding)) :
    ∀ (fuel : Nat) (s : String), maxKeyLen m < s.length + fuel →
      hasKey m (chooseLoop m fuel s) = false ∧
      ∃ k, chooseLoop m fuel s = s ++ underscores k ∧
        ∀ j, j < k → hasKey m (s ++ underscores j) = true := by
  intro fuel
  induction fuel with
  | zero =>
    intro s hs
    have hk : hasKey m s = false := by
      cases h : hasKey m s
      · rfl
      · exact absurd (hasKey_length_le m s h) (by omega)
    exact ⟨by simpa [chooseLoop] using hk,
      0, by simp [chooseLoop, append_underscores_zero], by omega⟩
  | succ fuel ih =>
    intro s hs
    cases h : hasKey m s
    · exact ⟨by simp [chooseLoop, h],
        0, by simp [chooseLoop, h, append_underscores_zero], by omega⟩
    · have hlen : maxKeyLen m < (s ++ "_").length + fuel := by
        rw [String.length_append]
        have h1 : ("_" : String).length = 1 := rfl
        omega
      obtain ⟨h1, k, h2, h3⟩ := ih (s ++ "_") hlen
      have hloop : chooseLoop m (fuel + 1) s = chooseLoop m fuel (s ++ "_") := by
        simp [chooseLoop, h]
      refine ⟨hloop ▸ h1, k + 1, ?_, ?_⟩
      · rw [hloop, h2, append_underscores_succ]
      · intro j hj
        cases j with
        | zero => rw [append_underscores_zero]; exact h
        | succ j' =>
          have hj' := h3 j' (by omega)
          rwa [append_underscores_succ] at hj'

/-- The chosen script body-part name never collides with a binding name, and
equals the literal script extended by one underscore per collision along the
way. The fuel bound maxKeyLen + 1 always satisfies the premise of
chooseLoop_spec, which is exactly why the source loop terminates. -/
theorem chooseScriptBodyPart_spec (m : List (String × WorkerBinding)) :
    hasKey m (chooseScriptBodyPart m) = false ∧
    ∃ k, chooseScriptBodyPart m = "script" ++ underscores k ∧
      ∀ j, j < k → hasKey m ("script" ++ underscores j) = true := by
  have h6 : ("script" : String).length = 6 := rfl
  exact chooseLoop_spec m (maxKeyLen m + 1) "script" (by omega)

theorem chooseScriptBodyPart_ne_metadata (m : List (String × WorkerBinding)) :
    chooseScriptBodyPart m ≠ "metadata" := by
  obtain ⟨-, k, hk, -⟩ := chooseScriptBodyPart_spec m
  rw [hk]
  intro h
  have hl := congrArg String.length h
  rw [String.length_append, underscores_length] at hl
  have h6 : ("script" : String).length = 6 := rfl
  have h8 : ("metadata" : String).length = 8 := rfl
  rw [h6, h8] at hl
  have hk2 : k = 2 := by omega
  subst hk2
  exact absurd h (by decide)

/-! ## Claims about the multipart builder -/

/-- Claim C3: for every finite binding map the collision-avoidance loop of
formatMultipartBody terminates within its provable bound, the chosen script
body-part name is distinct from every binding name, and the name is the
literal script extended by exactly one disambiguating underscore for each
colliding intermediate candidate. -/
theorem claimC3_script_body_part_collision_free
    (m : List (String × WorkerBinding)) :
    hasKey m (chooseScriptBodyPart m) = false ∧
    (∀ p ∈ m, p.1 ≠ chooseScriptBodyPart m) ∧
    ∃ k, chooseScriptBodyPart m = "script" ++ underscores k ∧
      ∀ j, j < k → hasKey m ("script" ++ underscores j) = true := by
  obtain ⟨h1, k, h2, h3⟩ := chooseScriptBodyPart_spec m
  refine ⟨h1, ?_, k, h2, h3⟩
  intro p hp he
  have hk : hasKey m (chooseScriptBodyPart m) = true := by
    simp only [hasKey, List.any_eq_true, beq_iff_eq]
    exact ⟨p, hp, he⟩
  rw [h1] at hk
  exact Bool.false_ne_true hk

/-- Witness for claim C3 at a binding map whose names collide with the
reserved literal twice. -/
theorem claimC3_witness :
    hasKey [("script", WorkerBinding.inherit ⟨""⟩),
        ("script_", WorkerBinding.inherit ⟨"o"⟩)]
      (chooseScriptBodyPart [("script", WorkerBinding.inherit ⟨""⟩),
        ("script_", WorkerBinding.inherit ⟨"o"⟩)]) = false ∧
    (∀ p ∈ [("script", WorkerBinding.inherit ⟨""⟩),
        ("script_", WorkerBinding.inherit ⟨"o"⟩)],
      p.1 ≠ chooseScriptBodyPart [("script", WorkerBinding.inherit ⟨""⟩),
        ("script_", WorkerBinding.inherit ⟨"o"⟩)]) ∧
    ∃ k, chooseScriptBodyPart [("script", WorkerBinding.inherit ⟨""⟩),
        ("script_", WorkerBinding.inherit ⟨"o"⟩)] = "script" ++ underscores k ∧
      ∀ j, j < k →
        hasKey [("script", WorkerBinding.inherit ⟨""⟩),
          ("script_", WorkerBinding.inherit ⟨"o"⟩)]
          ("script" ++ underscores j) = true :=
  claimC3_script_body_part_collision_free
    [("script", WorkerBinding.inherit ⟨""⟩),
     ("script_", WorkerBinding.inherit ⟨"o"⟩)]

/-- Claim C2: for every binding map with at least one binding, the multipart
builder emits exactly one part named metadata whose JSON is the metadata
object listing exactly one fragment per binding, exactly one script part
whose bytes equal the script text, and one extra part per binding that
supplies a body-part writer; the only binding variant of the module supplies
none, so the part count is exactly two. -/
theorem claimC2_multipart_exact_parts (params : WorkerScriptParams)
    (hne : params.Bindings ≠ []) :
    ∃ parts, formatMultipartParts params = Except.ok parts ∧
      (parts.countP fun p => p.name == "metadata") = 1 ∧
      (∀ p ∈ parts, p.name = "metadata" →
        p.content = marshalMetadata (chooseScriptBodyPart params.Bindings)
          (bindingFragments params.Bindings)) ∧
      (bindingFragments params.Bindings).length = params.Bindings.length ∧
      (parts.countP fun p => p.name == chooseScriptBodyPart params.Bindings) = 1 ∧
      (∀ p ∈ parts, p.name = chooseScriptBodyPart params.Bindings →
        p.content = params.Script) ∧
      parts.length =
        2 + params.Bindings.countP fun p => bindingSuppliesWriter p.1 p.2 := by
  have hmeta := chooseScriptBodyPart_ne_metadata params.Bindings
  refine ⟨_, formatMultipartParts_eq params, ?_, ?_, ?_, ?_, ?_, ?_⟩
  · simp [List.countP_cons, hmeta]
  · intro p hp hname
    rcases List.mem_cons.mp hp with rfl | hp2
    · rfl
    · rcases List.mem_singleton.mp hp2 with rfl
      exact absurd hname hmeta
  · simp [bindingFragments]
  · have hmeta2 : ¬("metadata" = chooseScriptBodyPart params.Bindings) :=
      fun h => hmeta h.symm
    simp [List.countP_cons, hmeta2]
  · intro p hp hname
    rcases List.mem_cons.mp hp with rfl | hp2
    · exact absurd hname.symm hmeta
    · rcases List.mem_singleton.mp hp2 with rfl
      rfl
  · simp [no_binding_supplies_writer]

/-- Witness for claim C2 at a one-binding map. -/
theorem claimC2_witness :
    ([("b1", WorkerBinding.inherit ⟨""⟩)] ≠
      ([] : List (String × WorkerBinding))) ∧
    (∃ parts,
      formatMultipartParts ⟨"body", [("b1", WorkerBinding.inherit ⟨""⟩)]⟩ =
        Except.ok parts ∧
      (parts.countP fun p => p.name == "metadata") = 1 ∧
      (∀ p ∈ parts, p.name = "metadata" →
        p.content = marshalMetadata
          (chooseScriptBodyPart [("b1", WorkerBinding.inherit ⟨""⟩)])
          (bindingFragments [("b1", WorkerBinding.inherit ⟨""⟩)])) ∧
      (bindingFragments [("b1", WorkerBinding.inherit ⟨""⟩)]).length =
        [("b1", WorkerBinding.inherit ⟨""⟩)].length ∧
      (parts.countP fun p =>
        p.name == chooseScriptBodyPart [("b1", WorkerBinding.inherit ⟨""⟩)]) = 1 ∧
      (∀ p ∈ parts,
        p.name = chooseScriptBodyPart [("b1", WorkerBinding.inherit ⟨""⟩)] →
        p.content = "body") ∧
      parts.length = 2 + [("b1", WorkerBinding.inherit ⟨""⟩)].countP
        fun p => bindingSuppliesWriter p.1 p.2) :=
  ⟨by decide, claimC2_multipart_exact_parts
    ⟨"body", [("b1", WorkerBinding.inherit ⟨""⟩)]⟩ (by decide)⟩

/-- Claim C7: the documented two-inherit-binding scenario produces exactly a
metadata part whose JSON has body_part script and the two binding fragments
in insertion order (the first with old_name absent, decoding to the empty
string, the second with old_name old_binding_name), followed by the script
part holding the script text; and in general the fragment list is the map
over the bindings in visit order, aligned position by position with the list
of body writers. -/
theorem claimC7_inherit_scenario (S : String) :
    formatMultipartParts ⟨S, [("b1", WorkerBinding.inherit ⟨""⟩),
        ("b2", WorkerBinding.inherit ⟨"old_binding_name"⟩)]⟩ =
      Except.ok
        [⟨"metadata", "application/json",
          "\x7b\"body_part\":\"script\",\"bindings\":[\x7b\"name\":\"b1\",\"type\":\"inherit\"\x7d,\x7b\"name\":\"b2\",\"type\":\"inherit\",\"old_name\":\"old_binding_name\"\x7d]\x7d"⟩,
         ⟨"script", "application/javascript", S⟩] ∧
    ∀ params : WorkerScriptParams,
      serializeBindings params.Bindings =
        Except.ok (bindingFragments params.Bindings,
          params.Bindings.map fun _ => (none : Option BindingBodyWriter)) :=
  ⟨rfl, fun params => serializeBindings_eq params.Bindings⟩

/-- Witness for claim C7 at a concrete script text. -/
theorem claimC7_witness :
    formatMultipartParts ⟨"return fetch(request)",
        [("b1", WorkerBinding.inherit ⟨""⟩),
         ("b2", WorkerBinding.inherit ⟨"old_binding_name"⟩)]⟩ =
      Except.ok
        [⟨"metadata", "application/json",
          "\x7b\"body_part\":\"script\",\"bindings\":[\x7b\"name\":\"b1\",\"type\":\"inherit\"\x7d,\x7b\"name\":\"b2\",\"type\":\"inherit\",\"old_name\":\"old_binding_name\"\x7d]\x7d"⟩,
         ⟨"script", "application/javascript", "return fetch(request)"⟩] :=
  (claimC7_inherit_scenario "return fetch(request)").1

/-- Claim C9: in the multipart builder the error of creating the script body
part is discarded, being immediately overwritten by the result of writing the
script bytes, so a failure of the create-part step alone cannot abort the
call: with every other writer operation succeeding, the checked builder still
returns the successful body and never surfaces the create-part error. -/
theorem claimC9_create_part_error_discarded (o : MpErrOracle)
    (boundary e : String) (params : WorkerScriptParams)
    (h1 : o.createMetaPartErr = none) (h2 : o.marshalMetaErr = none)
    (h3 : o.writeMetaErr = none) (hc : o.createScriptPartErr = some e)
    (hw : o.writeScriptErr = none) :
    formatMultipartBodyChecked o boundary params =
      formatMultipartBody boundary params ∧
    formatMultipartBodyChecked o boundary params ≠ Except.error e := by
  have hch : formatMultipartBodyChecked o boundary params =
      Except.ok ("multipart/form-data; boundary=" ++ boundary,
        renderMultipart boundary
          [⟨"metadata", "application/json",
            marshalMetadata (chooseScriptBodyPart params.Bindings)
              (bindingFragments params.Bindings)⟩,
           ⟨chooseScriptBodyPart params.Bindings, "application/javascript",
            params.Script⟩]) := by
    simp [formatMultipartBodyChecked, h1, h2, h3, hw, serializeBindings_eq,
      runWriters_map_none, runWriters_replicate_none]
  rw [hch, formatMultipartBody_eq]
  exact ⟨rfl, by simp⟩

/-- Witness for claim C9 at a concrete oracle, boundary and script. -/
theorem claimC9_witness :
    (c9Oracle.createMetaPartErr = none ∧ c9Oracle.marshalMetaErr = none ∧
      c9Oracle.writeMetaErr = none ∧
      c9Oracle.createScriptPartErr = some "create part failed" ∧
      c9Oracle.writeScriptErr = none) ∧
    (formatMultipartBodyChecked c9Oracle "bnd" ⟨"js", []⟩ =
        formatMultipartBody "bnd" ⟨"js", []⟩ ∧
      formatMultipartBodyChecked c9Oracle "bnd" ⟨"js", []⟩ ≠
        Except.error "create part failed") :=
  ⟨⟨rfl, rfl, rfl, rfl, rfl⟩,
    claimC9_create_part_error_discarded c9Oracle "bnd" "create part failed"
      ⟨"js", []⟩ rfl rfl rfl rfl rfl⟩

/-! ## Helper lemmas about the operations: precondition failures and
request logs -/

theorem deleteWorkerWithName_noorg (api : API) (env : Env) (name : String)
    (h : api.OrganizationID = "") :
    api.deleteWorkerWithName env name =
      (Except.error errOrganizationIDRequired, []) := by
  simp [API.deleteWorkerWithName, h]

theorem deleteWorkerWithName_log (api : API) (env : Env) (name : String)
    (h : api.OrganizationID ≠ "") :
    (api.deleteWorkerWithName env name).2 =
      [⟨"DELETE", "/accounts/" ++ api.OrganizationID ++ "/workers/scripts/" ++ name,
        [], ReqBody.empty⟩] := by
  unfold API.deleteWorkerWithName
  rw [if_neg h]
  dsimp only
  split
  · rfl
  · split <;> rfl

theorem downloadWorkerWithName_noorg (api : API) (env : Env) (name : String)
    (h : api.OrganizationID = "") :
    api.downloadWorkerWithName env name =
      (Except.error errOrganizationIDRequired, []) := by
  simp [API.downloadWorkerWithName, h]

theorem downloadWorkerWithName_log (api : API) (env : Env) (name : String)
    (h : api.OrganizationID ≠ "") :
    (api.downloadWorkerWithName env name).2 =
      [⟨"GET", "/accounts/" ++ api.OrganizationID ++ "/workers/scripts/" ++ name,
        [], ReqBody.empty⟩] := by
  unfold API.downloadWorkerWithName
  rw [if_neg h]
  dsimp only
  split <;> rfl

theorem multiScriptUpload_noorg (api : API) (env : Env)
    (name contentType body : String) (h : api.OrganizationID = "") :
    api.multiScriptUpload env name contentType body =
      (Except.error errOrganizationIDRequired, []) := by
  simp [API.multiScriptUpload, h]

theorem multiScriptUpload_log (api : API) (env : Env)
    (name contentType body : String) (h : api.OrganizationID ≠ "") :
    (api.multiScriptUpload env name contentType body).2 =
      [⟨"PUT", "/accounts/" ++ api.OrganizationID ++ "/workers/scripts/" ++ name,
        [("Content-Type", contentType)], ReqBody.raw body⟩] := by
  unfold API.multiScriptUpload
  rw [if_neg h]
  dsimp only
  split
  · rfl
  · split <;> rfl

theorem singleScriptUpload_log (api : API) (env : Env)
    (zoneId contentType body : String) :
    (api.singleScriptUpload env zoneId contentType body).2 =
      [⟨"PUT", "/zones/" ++ zoneId ++ "/workers/script",
        [("Content-Type", contentType)], ReqBody.raw body⟩] := by
  unfold API.singleScriptUpload
  dsimp only
  split
  · rfl
  · split <;> rfl

theorem deleteWorker_dispatch (api : API) (env : Env)
    (p : WorkerRequestParams) (h : p.ScriptName ≠ "") :
    API.DeleteWorker api env p = api.deleteWorkerWithName env p.ScriptName := by
  simp [API.DeleteWorker, h]

theorem deleteWorker_single_log (api : API) (env : Env)
    (p : WorkerRequestParams) (h : p.ScriptName = "") :
    (API.DeleteWorker api env p).2 =
      [⟨"DELETE", "/zones/" ++ p.ZoneID ++ "/workers/script", [],
        ReqBody.empty⟩] := by
  unfold API.DeleteWorker
  rw [if_neg (by simp [h])]
  dsimp only
  split
  · rfl
  · split <;> rfl

theorem downloadWorker_dispatch (api : API) (env : Env)
    (p : WorkerRequestParams) (h : p.ScriptName ≠ "") :
    API.DownloadWorker api env p = api.downloadWorkerWithName env p.ScriptName := by
  simp [API.DownloadWorker, h]

theorem downloadWorker_single_log (api : API) (env : Env)
    (p : WorkerRequestParams) (h : p.ScriptName = "") :
    (API.DownloadWorker api env p).2 =
      [⟨"GET", "/zones/" ++ p.ZoneID ++ "/workers/script", [],
        ReqBody.empty⟩] := by
  unfold API.DownloadWorker
  rw [if_neg (by simp [h])]
  dsimp only
  split <;> rfl

theorem uploadWorker_dispatch (api : API) (env : Env)
    (p : WorkerRequestParams) (data : String) (h : p.ScriptName ≠ "") :
    API.UploadWorker api env p data =
      api.multiScriptUpload env p.ScriptName "application/javascript" data := by
  simp [API.UploadWorker, h]

theorem uploadWorker_single (api : API) (env : Env)
    (p : WorkerRequestParams) (data : String) (h : p.ScriptName = "") :
    API.UploadWorker api env p data =
      api.singleScriptUpload env p.ZoneID "application/javascript" data := by
  simp [API.UploadWorker, h]

theorem uploadWorkerWithBindings_dispatch (api : API) (env : Env)
    (boundary : String) (p : WorkerRequestParams) (data : WorkerScriptParams)
    (h : p.ScriptName ≠ "") :
    API.UploadWorkerWithBindings api env boundary p data =
      api.multiScriptUpload env p.ScriptName
        ("multipart/form-data; boundary=" ++ boundary)
        (renderMultipart boundary
          [⟨"metadata", "application/json",
            marshalMetadata (chooseScriptBodyPart data.Bindings)
              (bindingFragments data.Bindings)⟩,
           ⟨chooseScriptBodyPart data.Bindings, "application/javascript",
            data.Script⟩]) := by
  rw [API.UploadWorkerWithBindings, formatMultipartBody_eq]
  simp [h]

theorem uploadWorkerWithBindings_single (api : API) (env : Env)
    (boundary : String) (p : WorkerRequestParams) (data : WorkerScriptParams)
    (h : p.ScriptName = "") :
    API.UploadWorkerWithBindings api env boundary p data =
      api.singleScriptUpload env p.ZoneID
        ("multipart/form-data; boundary=" ++ boundary)
        (renderMultipart boundary
          [⟨"metadata", "application/json",
            marshalMetadata (chooseScriptBodyPart data.Bindings)
              (bindingFragments data.Bindings)⟩,
           ⟨chooseScriptBodyPart data.Bindings, "application/javascript",
            data.Script⟩]) := by
  rw [API.UploadWorkerWithBindings, formatMultipartBody_eq]
  simp [h]

/-! ## Claims about the operations -/

/-- Counterexample to claim C1 as stated: an upload with zero bindings that
goes through UploadWorkerWithBindings is still multipart-wrapped, so the one
request issued carries a multipart content type instead of
application/javascript and its body differs from the raw script bytes. -/
theorem claimC1_counterexample :
    ((API.UploadWorkerWithBindings ⟨"orgid"⟩ testEnv "bnd" ⟨"zone1", ""⟩
        ⟨"script-bytes", []⟩).2.map fun r => r.headers) =
      [[("Content-Type", "multipart/form-data; boundary=bnd")]] ∧
    ("multipart/form-data; boundary=bnd" : String) ≠ "application/javascript" ∧
    ((API.UploadWorkerWithBindings ⟨"orgid"⟩ testEnv "bnd" ⟨"zone1", ""⟩
        ⟨"script-bytes", []⟩).2.map fun r => r.body) ≠
      [ReqBody.raw "script-bytes"] :=
  ⟨rfl, by decide, by decide⟩

/-- Claim C1 (amended): every request issued by UploadWorker, the upload
entry point that takes no bindings, is a PUT whose body equals the raw
script bytes with content type exactly application/javascript and no
multipart wrapping; uploads through UploadWorkerWithBindings are
multipart-wrapped even when the binding map is empty. -/
theorem claimC1_upload_worker_raw (api : API) (env : Env)
    (p : WorkerRequestParams) (data : String) :
    ∀ req ∈ (API.UploadWorker api env p data).2,
      req.method = "PUT" ∧
      req.headers = [("Content-Type", "application/javascript")] ∧
      req.body = ReqBody.raw data := by
  intro req hreq
  by_cases h : p.ScriptName = ""
  · rw [uploadWorker_single api env p data h, singleScriptUpload_log] at hreq
    rcases List.mem_singleton.mp hreq with rfl
    exact ⟨rfl, rfl, rfl⟩
  · rw [uploadWorker_dispatch api env p data h] at hreq
    by_cases ho : api.OrganizationID = ""
    · rw [multiScriptUpload_noorg api env p.ScriptName _ _ ho] at hreq
      simp at hreq
    · rw [multiScriptUpload_log api env p.ScriptName _ _ ho] at hreq
      rcases List.mem_singleton.mp hreq with rfl
      exact ⟨rfl, rfl, rfl⟩

/-- Witness for the amended claim C1 at a concrete upload. -/
theorem claimC1_witness :
    (⟨"PUT", "/zones/foo/workers/script",
        [("Content-Type", "application/javascript")],
        ReqBody.raw "js"⟩ : Request).method = "PUT" ∧
    (⟨"PUT", "/zones/foo/workers/script",
        [("Content-Type", "application/javascript")],
        ReqBody.raw "js"⟩ : Request).headers =
      [("Content-Type", "application/javascript")] ∧
    (⟨"PUT", "/zones/foo/workers/script",
        [("Content-Type", "application/javascript")],
        ReqBody.raw "js"⟩ : Request).body = ReqBody.raw "js" :=
  claimC1_upload_worker_raw ⟨""⟩ testEnv ⟨"foo", ""⟩ "js"
    ⟨"PUT", "/zones/foo/workers/script",
      [("Content-Type", "application/javascript")], ReqBody.raw "js"⟩
    (by decide)

/-- Claim C4: every multi-script-only operation invoked with an empty
organization identifier returns the precondition error and issues no
request: delete, download, upload (with and without bindings) addressed by
script name, listing scripts, and route creation or update with a non-empty
Script field. -/
theorem claimC4_missing_org_precondition (api : API) (env : Env)
    (z name data boundary routeID : String) (sparams : WorkerScriptParams)
    (route : WorkerRoute) (horg : api.OrganizationID = "")
    (hname : name ≠ "") (hscript : route.Script ≠ "") :
    API.DeleteWorker api env ⟨z, name⟩ =
      (Except.error errOrganizationIDRequired, []) ∧
    API.DownloadWorker api env ⟨z, name⟩ =
      (Except.error errOrganizationIDRequired, []) ∧
    API.UploadWorker api env ⟨z, name⟩ data =
      (Except.error errOrganizationIDRequired, []) ∧
    API.UploadWorkerWithBindings api env boundary ⟨z, name⟩ sparams =
      (Except.error errOrganizationIDRequired, []) ∧
    API.ListWorkerScripts api env =
      (Except.error errOrganizationIDRequired, []) ∧
    API.CreateWorkerRoute api env z route =
      (Except.error errOrganizationIDRequired, []) ∧
    API.UpdateWorkerRoute api env z routeID route =
      (Except.error errOrganizationIDRequired, []) := by
  refine ⟨?_, ?_, ?_, ?_, ?_, ?_, ?_⟩
  · rw [deleteWorker_dispatch api env ⟨z, name⟩ hname,
      deleteWorkerWithName_noorg api env name horg]
  · rw [downloadWorker_dispatch api env ⟨z, name⟩ hname,
      downloadWorkerWithName_noorg api env name horg]
  · rw [uploadWorker_dispatch api env ⟨z, name⟩ data hname,
      multiScriptUpload_noorg api env name _ _ horg]
  · rw [uploadWorkerWithBindings_dispatch api env boundary ⟨z, name⟩ sparams hname,
      multiScriptUpload_noorg api env name _ _ horg]
  · simp [API.ListWorkerScripts, horg]
  · simp [API.CreateWorkerRoute, horg, hscript]
  · simp [API.UpdateWorkerRoute, horg, hscript]

/-- Witness for claim C4 at a concrete client with an empty organization
identifier. -/
theorem claimC4_witness :
    API.DeleteWorker ⟨""⟩ testEnv ⟨"zone", "bar"⟩ =
      (Except.error errOrganizationIDRequired, []) ∧
    API.DownloadWorker ⟨""⟩ testEnv ⟨"zone", "bar"⟩ =
      (Except.error errOrganizationIDRequired, []) ∧
    API.UploadWorker ⟨""⟩ testEnv ⟨"zone", "bar"⟩ "d" =
      (Except.error errOrganizationIDRequired, []) ∧
    API.UploadWorkerWithBindings ⟨""⟩ testEnv "bnd" ⟨"zone", "bar"⟩ ⟨"s", []⟩ =
      (Except.error errOrganizationIDRequired, []) ∧
    API.ListWorkerScripts ⟨""⟩ testEnv =
      (Except.error errOrganizationIDRequired, []) ∧
    API.CreateWorkerRoute ⟨""⟩ testEnv "zone" ⟨"", "pat", false, "sname"⟩ =
      (Except.error errOrganizationIDRequired, []) ∧
    API.UpdateWorkerRoute ⟨""⟩ testEnv "zone" "rid" ⟨"", "pat", false, "sname"⟩ =
      (Except.error errOrganizationIDRequired, []) :=
  claimC4_missing_org_precondition ⟨""⟩ testEnv "zone" "bar" "d" "bnd" "rid"
    ⟨"s", []⟩ ⟨"", "pat", false, "sname"⟩ rfl (by decide) (by decide)

/-- Counterexample to claim C5 as stated: in single-script mode (empty
organization identifier) the server supplies enabled = false on a route that
carries a script name, yet the client returns enabled = true, so the flag is
not passed through unchanged. -/
theorem claimC5_counterexample :
    (⟨""⟩ : API).OrganizationID = "" ∧
    c5Env.unmarshalRoutesResponse "listing" =
      Except.ok ⟨{ Response.zero with Success := true },
        [⟨"route1", "pat1", false, "scriptname"⟩]⟩ ∧
    (API.ListWorkerRoutes ⟨""⟩ c5Env "zone1").1 =
      Except.ok ⟨{ Response.zero with Success := true },
        [⟨"route1", "pat1", true, "scriptname"⟩]⟩ ∧
    (⟨"route1", "pat1", true, "scriptname"⟩ : WorkerRoute) ≠
      ⟨"route1", "pat1", false, "scriptname"⟩ :=
  ⟨rfl, rfl, rfl, by decide⟩

/-- Claim C5 (amended): after any successful route listing, a returned route
whose Script field is non-empty has Enabled forced to true and a returned
route whose Script field is empty is exactly the server-supplied route;
this holds in both modes, the backfill being applied regardless of whether
an account identifier is configured. -/
theorem claimC5_route_backfill (api : API) (env : Env) (zoneID : String)
    (r0 : WorkerRoutesResponse) (res : String)
    (ht : ∀ req, env.transport req = Except.ok res)
    (hu : env.unmarshalRoutesResponse res = Except.ok r0) :
    ∃ out, (API.ListWorkerRoutes api env zoneID).1 = Except.ok out ∧
      out.Routes.length = r0.Routes.length ∧
      ∀ i (h1 : i < r0.Routes.length) (h2 : i < out.Routes.length),
        ((r0.Routes[i]).Script ≠ "" → (out.Routes[i]).Enabled = true) ∧
        ((r0.Routes[i]).Script = "" → out.Routes[i] = r0.Routes[i]) := by
  refine ⟨{ r0 with Routes := r0.Routes.map backfillRoute }, ?_, by simp, ?_⟩
  · unfold API.ListWorkerRoutes
    dsimp only
    rw [ht]
    dsimp only
    rw [hu]
  · intro i h1 h2
    constructor
    · intro hs
      simp only [List.getElem_map]
      simp [backfillRoute, hs]
    · intro hs
      simp only [List.getElem_map]
      simp [backfillRoute, hs]

/-- Witness for the amended claim C5 at a concrete listing containing a
script-bearing route. -/
theorem claimC5_witness :
    ∃ out, (API.ListWorkerRoutes ⟨"org1"⟩ c5Env "zone1").1 = Except.ok out ∧
      out.Routes.length =
        (⟨{ Response.zero with Success := true },
          [⟨"route1", "pat1", false, "scriptname"⟩]⟩ :
            WorkerRoutesResponse).Routes.length ∧
      ∀ i (h1 : i < (⟨{ Response.zero with Success := true },
          [⟨"route1", "pat1", false, "scriptname"⟩]⟩ :
            WorkerRoutesResponse).Routes.length)
        (h2 : i < out.Routes.length),
        (((⟨{ Response.zero with Success := true },
            [⟨"route1", "pat1", false, "scriptname"⟩]⟩ :
              WorkerRoutesResponse).Routes[i]).Script ≠ "" →
          (out.Routes[i]).Enabled = true) ∧
        (((⟨{ Response.zero with Success := true },
            [⟨"route1", "pat1", false, "scriptname"⟩]⟩ :
              WorkerRoutesResponse).Routes[i]).Script = "" →
          out.Routes[i] = (⟨{ Response.zero with Success := true },
            [⟨"route1", "pat1", false, "scriptname"⟩]⟩ :
              WorkerRoutesResponse).Routes[i]) :=
  claimC5_route_backfill ⟨"org1"⟩ c5Env "zone1"
    ⟨{ Response.zero with Success := true },
      [⟨"route1", "pat1", false, "scriptname"⟩]⟩ "listing"
    (fun _ => rfl) rfl

/-- Claim C6: a non-empty ScriptName selects multi-script mode for delete,
download and both uploads: every request issued targets the account-scoped
scripts path, and the supplied ZoneID influences neither the result nor the
request log. -/
theorem claimC6_script_name_precedence (api : API) (env : Env)
    (z1 z2 name data boundary : String) (sparams : WorkerScriptParams)
    (h : name ≠ "") :
    API.DeleteWorker api env ⟨z1, name⟩ = API.DeleteWorker api env ⟨z2, name⟩ ∧
    API.DownloadWorker api env ⟨z1, name⟩ = API.DownloadWorker api env ⟨z2, name⟩ ∧
    API.UploadWorker api env ⟨z1, name⟩ data =
      API.UploadWorker api env ⟨z2, name⟩ data ∧
    API.UploadWorkerWithBindings api env boundary ⟨z1, name⟩ sparams =
      API.UploadWorkerWithBindings api env boundary ⟨z2, name⟩ sparams ∧
    (∀ req ∈ (API.DeleteWorker api env ⟨z1, name⟩).2,
      req.uri = "/accounts/" ++ api.OrganizationID ++ "/workers/scripts/" ++ name) ∧
    (∀ req ∈ (API.DownloadWorker api env ⟨z1, name⟩).2,
      req.uri = "/accounts/" ++ api.OrganizationID ++ "/workers/scripts/" ++ name) ∧
    (∀ req ∈ (API.UploadWorker api env ⟨z1, name⟩ data).2,
      req.uri = "/accounts/" ++ api.OrganizationID ++ "/workers/scripts/" ++ name) ∧
    (∀ req ∈ (API.UploadWorkerWithBindings api env boundary ⟨z1, name⟩ sparams).2,
      req.uri = "/accounts/" ++ api.OrganizationID ++ "/workers/scripts/" ++ name) := by
  refine ⟨?_, ?_, ?_, ?_, ?_, ?_, ?_, ?_⟩
  · rw [deleteWorker_dispatch api env ⟨z1, name⟩ h,
      deleteWorker_dispatch api env ⟨z2, name⟩ h]
  · rw [downloadWorker_dispatch api env ⟨z1, name⟩ h,
      downloadWorker_dispatch api env ⟨z2, name⟩ h]
  · rw [uploadWorker_dispatch api env ⟨z1, name⟩ data h,
      uploadWorker_dispatch api env ⟨z2, name⟩ data h]
  · rw [uploadWorkerWithBindings_dispatch api env boundary ⟨z1, name⟩ sparams h,
      uploadWorkerWithBindings_dispatch api env boundary ⟨z2, name⟩ sparams h]
  · intro req hreq
    rw [deleteWorker_dispatch api env ⟨z1, name⟩ h] at hreq
    by_cases ho : api.OrganizationID = ""
    · rw [deleteWorkerWithName_noorg api env name ho] at hreq
      simp at hreq
    · rw [deleteWorkerWithName_log api env name ho] at hreq
      rcases List.mem_singleton.mp hreq with rfl
      rfl
  · intro req hreq
    rw [downloadWorker_dispatch api env ⟨z1, name⟩ h] at hreq
    by_cases ho : api.OrganizationID = ""
    · rw [downloadWorkerWithName_noorg api env name ho] at hreq
      simp at hreq
    · rw [downloadWorkerWithName_log api env name ho] at hreq
      rcases List.mem_singleton.mp hreq with rfl
      rfl
  · intro req hreq
    rw [uploadWorker_dispatch api env ⟨z1, name⟩ data h] at hreq
    by_cases ho : api.OrganizationID = ""
    · rw [multiScriptUpload_noorg api env name _ _ ho] at hreq
      simp at hreq
    · rw [multiScriptUpload_log api env name _ _ ho] at hreq
      rcases List.mem_singleton.mp hreq with rfl
      rfl
  · intro req hreq
    rw [uploadWorkerWithBindings_dispatch api env boundary ⟨z1, name⟩ sparams h] at hreq
    by_cases ho : api.OrganizationID = ""
    · rw [multiScriptUpload_noorg api env name _ _ ho] at hreq
      simp at hreq
    · rw [multiScriptUpload_log api env name _ _ ho] at hreq
      rcases List.mem_singleton.mp hreq with rfl
      rfl

/-- Witness for claim C6 at two different zone identifiers. -/
theorem claimC6_witness :
    API.DeleteWorker ⟨"org1"⟩ testEnv ⟨"zoneA", "bar"⟩ =
      API.DeleteWorker ⟨"org1"⟩ testEnv ⟨"zoneB", "bar"⟩ ∧
    API.DownloadWorker ⟨"org1"⟩ testEnv ⟨"zoneA", "bar"⟩ =
      API.DownloadWorker ⟨"org1"⟩ testEnv ⟨"zoneB", "bar"⟩ ∧
    API.UploadWorker ⟨"org1"⟩ testEnv ⟨"zoneA", "bar"⟩ "js" =
      API.UploadWorker ⟨"org1"⟩ testEnv ⟨"zoneB", "bar"⟩ "js" ∧
    API.UploadWorkerWithBindings ⟨"org1"⟩ testEnv "bnd" ⟨"zoneA", "bar"⟩ ⟨"js", []⟩ =
      API.UploadWorkerWithBindings ⟨"org1"⟩ testEnv "bnd" ⟨"zoneB", "bar"⟩ ⟨"js", []⟩ ∧
    (∀ req ∈ (API.DeleteWorker ⟨"org1"⟩ testEnv ⟨"zoneA", "bar"⟩).2,
      req.uri = "/accounts/" ++ (⟨"org1"⟩ : API).OrganizationID ++
        "/workers/scripts/" ++ "bar") ∧
    (∀ req ∈ (API.DownloadWorker ⟨"org1"⟩ testEnv ⟨"zoneA", "bar"⟩).2,
      req.uri = "/accounts/" ++ (⟨"org1"⟩ : API).OrganizationID ++
        "/workers/scripts/" ++ "bar") ∧
    (∀ req ∈ (API.UploadWorker ⟨"org1"⟩ testEnv ⟨"zoneA", "bar"⟩ "js").2,
      req.uri = "/accounts/" ++ (⟨"org1"⟩ : API).OrganizationID ++
        "/workers/scripts/" ++ "bar") ∧
    (∀ req ∈ (API.UploadWorkerWithBindings ⟨"org1"⟩ testEnv "bnd"
        ⟨"zoneA", "bar"⟩ ⟨"js", []⟩).2,
      req.uri = "/accounts/" ++ (⟨"org1"⟩ : API).OrganizationID ++
        "/workers/scripts/" ++ "bar") :=
  claimC6_script_name_precedence ⟨"org1"⟩ testEnv "zoneA" "zoneB" "bar" "js"
    "bnd" ⟨"js", []⟩ (by decide)

/-- Claim C8: a download whose transport request succeeds returns the raw
response bytes as the script text with the success flag set locally (unless
the multi-script precondition failed before any request), and the outcome is
entirely independent of the JSON decoders, which are never consulted. -/
theorem claimC8_download_raw (api : API) (env env2 : Env)
    (p : WorkerRequestParams) (res : String)
    (ht : ∀ req, env.transport req = Except.ok res)
    (ht2 : env2.transport = env.transport) :
    ((API.DownloadWorker api env p).1 = Except.error errOrganizationIDRequired ∨
      (API.DownloadWorker api env p).1 =
        Except.ok { response := { Response.zero with Success := true },
                    result := { WorkerScript.zero with Script := res } }) ∧
    API.DownloadWorker api env p = API.DownloadWorker api env2 p := by
  constructor
  · by_cases h : p.ScriptName = ""
    · right
      unfold API.DownloadWorker
      rw [if_neg (by simp [h])]
      dsimp only
      rw [ht]
    · rw [downloadWorker_dispatch api env p h]
      by_cases ho : api.OrganizationID = ""
      · left
        rw [downloadWorkerWithName_noorg api env p.ScriptName ho]
      · right
        unfold API.downloadWorkerWithName
        rw [if_neg ho]
        dsimp only
        rw [ht]
  · unfold API.DownloadWorker API.downloadWorkerWithName
    rw [ht2]

/-- Witness for claim C8: two environments sharing a transport but
disagreeing on the script decoder produce the same raw download. -/
theorem claimC8_witness :
    ((API.DownloadWorker ⟨""⟩ c8EnvA ⟨"z", ""⟩).1 =
        Except.error errOrganizationIDRequired ∨
      (API.DownloadWorker ⟨""⟩ c8EnvA ⟨"z", ""⟩).1 =
        Except.ok { response := { Response.zero with Success := true },
                    result := { WorkerScript.zero with Script := "worker source" } }) ∧
    API.DownloadWorker ⟨""⟩ c8EnvA ⟨"z", ""⟩ =
      API.DownloadWorker ⟨""⟩ c8EnvB ⟨"z", ""⟩ :=
  claimC8_download_raw ⟨""⟩ c8EnvA c8EnvB ⟨"z", ""⟩ "worker source"
    (fun _ => rfl) rfl

/-- Claim C10: with an empty ScriptName no local validation of the zone
identifier happens: delete, download and both uploads always issue exactly
one request to the zone-scoped path built from the supplied ZoneID, and an
empty ZoneID yields the degenerate path with an empty zone segment. -/
theorem claimC10_no_zone_validation (api : API) (env : Env)
    (z data boundary : String) (sparams : WorkerScriptParams) :
    (API.DeleteWorker api env ⟨z, ""⟩).2.map Request.uri =
      ["/zones/" ++ z ++ "/workers/script"] ∧
    (API.DownloadWorker api env ⟨z, ""⟩).2.map Request.uri =
      ["/zones/" ++ z ++ "/workers/script"] ∧
    (API.UploadWorker api env ⟨z, ""⟩ data).2.map Request.uri =
      ["/zones/" ++ z ++ "/workers/script"] ∧
    (API.UploadWorkerWithBindings api env boundary ⟨z, ""⟩ sparams).2.map
        Request.uri = ["/zones/" ++ z ++ "/workers/script"] ∧
    (API.DeleteWorker api env ⟨"", ""⟩).2.map Request.uri =
      ["/zones//workers/script"] := by
  refine ⟨?_, ?_, ?_, ?_, ?_⟩
  · rw [deleteWorker_single_log api env ⟨z, ""⟩ rfl]; rfl
  · rw [downloadWorker_single_log api env ⟨z, ""⟩ rfl]; rfl
  · rw [uploadWorker_single api env ⟨z, ""⟩ data rfl, singleScriptUpload_log]; rfl
  · rw [uploadWorkerWithBindings_single api env boundary ⟨z, ""⟩ sparams rfl,
      singleScriptUpload_log]
    rfl
  · rw [deleteWorker_single_log api env ⟨"", ""⟩ rfl]; rfl

end Cloudflare
